import Mathlib

/-!
Shallow embedding of `src/convert_to_parquet/processing_script.py`
(SeaDronesSee MOT JSON → partitioned parquet converter).

JSON values are modelled by `PyVal`, records (JSON objects / DataFrame
rows) by association lists, and a pandas `DataFrame` by its list of
column names together with its list of rows.  Parquet writing is
modelled as producing `(path, DataFrame)` pairs; a path is its list of
segments.  Python exceptions raised by the script are modelled by
`PErr`; the driver in `main` distinguishes `ValueError` (strict: stop
the whole batch) from other exceptions (lenient: continue with the next
input file), which `isValueError` captures.  On a type-coercion failure
`Table.from_pandas` raises `pyarrow.lib.ArrowInvalid` — a `ValueError`
subclass — for a cell that cannot be converted to an integer column or
a null in a non-nullable field, but `pyarrow.lib.ArrowTypeError` — a
`TypeError` subclass, not a `ValueError` — for a non-string value in a
string column; pandas' shape error for the bbox destructuring is a
`ValueError`.
-/

namespace SDS

/-- A Python/JSON value as manipulated by the script.  `vNull` stands for
both JSON `null`/Python `None` and pandas `NaN` (a missing cell). -/
inductive PyVal where
  | vInt : Int → PyVal
  | vStr : String → PyVal
  | vBool : Bool → PyVal
  | vNull : PyVal
  | vList : List PyVal → PyVal
  | vObj : List (String × PyVal) → PyVal

mutual

def PyVal.decEq : (a b : PyVal) → Decidable (a = b)
  | .vInt a, .vInt b =>
      match Int.decEq a b with
      | isTrue h => isTrue (by rw [h])
      | isFalse h => isFalse (by simp only [PyVal.vInt.injEq]; exact h)
  | .vStr a, .vStr b =>
      match String.decEq a b with
      | isTrue h => isTrue (by rw [h])
      | isFalse h => isFalse (by simp only [PyVal.vStr.injEq]; exact h)
  | .vBool a, .vBool b =>
      match Bool.decEq a b with
      | isTrue h => isTrue (by rw [h])
      | isFalse h => isFalse (by simp only [PyVal.vBool.injEq]; exact h)
  | .vNull, .vNull => isTrue rfl
  | .vList a, .vList b =>
      match PyVal.decEqList a b with
      | isTrue h => isTrue (by rw [h])
      | isFalse h => isFalse (by simp only [PyVal.vList.injEq]; exact h)
  | .vObj a, .vObj b =>
      match PyVal.decEqObj a b with
      | isTrue h => isTrue (by rw [h])
      | isFalse h => isFalse (by simp only [PyVal.vObj.injEq]; exact h)
  | .vInt _, .vStr _ => isFalse (by intro h; exact PyVal.noConfusion h)
  | .vInt _, .vBool _ => isFalse (by intro h; exact PyVal.noConfusion h)
  | .vInt _, .vNull => isFalse (by intro h; exact PyVal.noConfusion h)
  | .vInt _, .vList _ => isFalse (by intro h; exact PyVal.noConfusion h)
  | .vInt _, .vObj _ => isFalse (by intro h; exact PyVal.noConfusion h)
  | .vStr _, .vInt _ => isFalse (by intro h; exact PyVal.noConfusion h)
  | .vStr _, .vBool _ => isFalse (by intro h; exact PyVal.noConfusion h)
  | .vStr _, .vNull => isFalse (by intro h; exact PyVal.noConfusion h)
  | .vStr _, .vList _ => isFalse (by intro h; exact PyVal.noConfusion h)
  | .vStr _, .vObj _ => isFalse (by intro h; exact PyVal.noConfusion h)
  | .vBool _, .vInt _ => isFalse (by intro h; exact PyVal.noConfusion h)
  | .vBool _, .vStr _ => isFalse (by intro h; exact PyVal.noConfusion h)
  | .vBool _, .vNull => isFalse (by intro h; exact PyVal.noConfusion h)
  | .vBool _, .vList _ => isFalse (by intro h; exact PyVal.noConfusion h)
  | .vBool _, .vObj _ => isFalse (by intro h; exact PyVal.noConfusion h)
  | .vNull, .vInt _ => isFalse (by intro h; exact PyVal.noConfusion h)
  | .vNull, .vStr _ => isFalse (by intro h; exact PyVal.noConfusion h)
  | .vNull, .vBool _ => isFalse (by intro h; exact PyVal.noConfusion h)
  | .vNull, .vList _ => isFalse (by intro h; exact PyVal.noConfusion h)
  | .vNull, .vObj _ => isFalse (by intro h; exact PyVal.noConfusion h)
  | .vList _, .vInt _ => isFalse (by intro h; exact PyVal.noConfusion h)
  | .vList _, .vStr _ => isFalse (by intro h; exact PyVal.noConfusion h)
  | .vList _, .vBool _ => isFalse (by intro h; exact PyVal.noConfusion h)
  | .vList _, .vNull => isFalse (by intro h; exact PyVal.noConfusion h)
  | .vList _, .vObj _ => isFalse (by intro h; exact PyVal.noConfusion h)
  | .vObj _, .vInt _ => isFalse (by intro h; exact PyVal.noConfusion h)
  | .vObj _, .vStr _ => isFalse (by intro h; exact PyVal.noConfusion h)
  | .vObj _, .vBool _ => isFalse (by intro h; exact PyVal.noConfusion h)
  | .vObj _, .vNull => isFalse (by intro h; exact PyVal.noConfusion h)
  | .vObj _, .vList _ => isFalse (by intro h; exact PyVal.noConfusion h)

def PyVal.decEqList : (a b : List PyVal) → Decidable (a = b)
  | [], [] => isTrue rfl
  | [], _ :: _ => isFalse (by intro h; exact List.noConfusion h)
  | _ :: _, [] => isFalse (by intro h; exact List.noConfusion h)
  | x :: xs, y :: ys =>
      match PyVal.decEq x y, PyVal.decEqList xs ys with
      | isTrue h1, isTrue h2 => isTrue (by rw [h1, h2])
      | isFalse h1, _ => isFalse (by simp only [List.cons.injEq]; intro h; exact h1 h.1)
      | _, isFalse h2 => isFalse (by simp only [List.cons.injEq]; intro h; exact h2 h.2)

def PyVal.decEqObj : (a b : List (String × PyVal)) → Decidable (a = b)
  | [], [] => isTrue rfl
  | [], _ :: _ => isFalse (by intro h; exact List.noConfusion h)
  | _ :: _, [] => isFalse (by intro h; exact List.noConfusion h)
  | (k, v) :: xs, (l, w) :: ys =>
      match String.decEq k l, PyVal.decEq v w, PyVal.decEqObj xs ys with
      | isTrue h0, isTrue h1, isTrue h2 => isTrue (by rw [h0, h1, h2])
      | isFalse h0, _, _ => isFalse (by
          simp only [List.cons.injEq, Prod.mk.injEq]
          intro h; exact h0 h.1.1)
      | _, isFalse h1, _ => isFalse (by
          simp only [List.cons.injEq, Prod.mk.injEq]
          intro h; exact h1 h.1.2)
      | _, _, isFalse h2 => isFalse (by
          simp only [List.cons.injEq]
          intro h; exact h2 h.2)

end

instance : DecidableEq PyVal := PyVal.decEq

/-- Python truthiness (`if x:`): `None`, `0`, `""`, `[]`, `{}` and `False`
are falsy, everything else truthy. -/
def pyTruthy : PyVal → Bool
  | .vInt n => n != 0
  | .vStr s => s ≠ ""
  | .vBool b => b
  | .vNull => false
  | .vList xs => !xs.isEmpty
  | .vObj fs => !fs.isEmpty

mutual

/-- `json.dumps` with its default separators. -/
def jsonDumps : PyVal → String
  | .vInt n => toString n
  | .vStr s => "\"" ++ s ++ "\""
  | .vBool b => if b then "true" else "false"
  | .vNull => "null"
  | .vList xs => "[" ++ jsonDumpsList xs ++ "]"
  | .vObj fs => "\x7b" ++ jsonDumpsObj fs ++ "\x7d"

def jsonDumpsList : List PyVal → String
  | [] => ""
  | [x] => jsonDumps x
  | x :: y :: xs => jsonDumps x ++ ", " ++ jsonDumpsList (y :: xs)

def jsonDumpsObj : List (String × PyVal) → String
  | [] => ""
  | [kv] => "\"" ++ kv.1 ++ "\": " ++ jsonDumps kv.2
  | kv :: kw :: fs => "\"" ++ kv.1 ++ "\": " ++ jsonDumps kv.2 ++ ", " ++ jsonDumpsObj (kw :: fs)

end

/-- Python `str()` as used inside the f-string for `file_path`. -/
def pyStr : PyVal → String
  | .vStr s => s
  | .vInt n => toString n
  | .vBool b => if b then "True" else "False"
  | .vNull => "None"
  | v => jsonDumps v

/-- A JSON object / one DataFrame row: an association list of fields. -/
abbrev Record := List (String × PyVal)

/-- Cell access: a key the row does not carry reads as a missing cell
(pandas fills `NaN` for records lacking a column). -/
def Record.getD (r : Record) (k : String) : PyVal :=
  match r.lookup k with
  | some v => v
  | none => .vNull

/-- `df[k] = v` restricted to one row: overwrite the binding for `k`,
appending it when absent. -/
def Record.set (r : Record) (k : String) (v : PyVal) : Record :=
  if (r.lookup k).isSome then
    r.map (fun kv => if kv.1 = k then (k, v) else kv)
  else r ++ [(k, v)]

/-- Drop every binding for `k` (used for `df.drop('bbox', axis=1)`). -/
def Record.eraseKey (r : Record) (k : String) : Record :=
  r.filter (fun kv => kv.1 ≠ k)

/-- A readable rendering for interactive exploration. -/
instance : Repr PyVal := ⟨fun v _ => Std.Format.text (jsonDumps v)⟩

/-- A pandas DataFrame: the column names and the rows.  A row may carry
keys outside `cols` (they are unobservable: every operation of the
script consults `cols` first) and may lack keys of `cols` (a missing
cell, read as `vNull`). -/
structure DataFrame where
  cols : List String
  rows : List Record
deriving DecidableEq, Repr

/-- The column set pandas infers for `pd.DataFrame(records)`: the union
of the records' keys. -/
def colsOfRecords (rs : List Record) : List String :=
  ((rs.map (fun r => r.map Prod.fst)).flatten).dedup

/-- `pd.DataFrame(records)`. -/
def mkDataFrame (rs : List Record) : DataFrame :=
  ⟨colsOfRecords rs, rs⟩

def DataFrame.hasCol (df : DataFrame) (c : String) : Bool :=
  df.cols.contains c

/-- The exceptions the script can raise while processing one table. -/
inductive PErr where
  /-- pandas `KeyError` for a missing column/label (not a `ValueError`). -/
  | keyError : String → PErr
  /-- the script's own `ValueError("Missing required columns …")`. -/
  | missingColumns : String → List String → PErr
  /-- `pyarrow.lib.ArrowInvalid` from `Table.from_pandas` (a `ValueError`
  subclass): an out-of-range integer, a value that cannot be converted to
  an integer column, or a null in a non-nullable field. -/
  | arrowInvalid : String → PErr
  /-- `pyarrow.lib.ArrowTypeError` from `Table.from_pandas` (a `TypeError`
  subclass, NOT a `ValueError`): a non-string, non-null value in a string
  column ("Expected bytes, got a 'int' object"). -/
  | arrowTypeError : String → PErr
  /-- pandas `ValueError` for mismatched bbox arity in `pd.DataFrame(…, columns=…)`. -/
  | shapeError : String → PErr
deriving DecidableEq, Repr

/-- Whether the Python exception is an instance of `ValueError` — the
class `main`'s strict handler catches.  `ArrowInvalid` and pandas shape
errors subclass `ValueError`; `ArrowTypeError` subclasses `TypeError`
and `KeyError` subclasses `LookupError`, so neither is caught by
`except ValueError`. -/
def isValueError : PErr → Bool
  | .keyError _ => false
  | .missingColumns _ _ => true
  | .arrowInvalid _ => true
  | .arrowTypeError _ => false
  | .shapeError _ => true

instance {ε α : Type} [DecidableEq ε] [DecidableEq α] : DecidableEq (Except ε α) :=
  fun x y =>
    match x, y with
    | .error a, .error b =>
        match decEq a b with
        | isTrue h => isTrue (by rw [h])
        | isFalse h => isFalse (by simp only [Except.error.injEq]; exact h)
    | .ok a, .ok b =>
        match decEq a b with
        | isTrue h => isTrue (by rw [h])
        | isFalse h => isFalse (by simp only [Except.ok.injEq]; exact h)
    | .error _, .ok _ => isFalse (by intro h; exact Except.noConfusion h)
    | .ok _, .error _ => isFalse (by intro h; exact Except.noConfusion h)

/-- `df[sel]`: column projection; a selected label absent from the
DataFrame raises `KeyError`. -/
def selectCols (df : DataFrame) (sel : List String) : Except PErr DataFrame :=
  match sel.find? (fun c => !df.hasCol c) with
  | some c => .error (.keyError c)
  | none => .ok ⟨sel, df.rows⟩

/-- `df.rename(columns={a: b})`. -/
def renameCol (df : DataFrame) (a b : String) : DataFrame :=
  ⟨df.cols.map (fun c => if c = a then b else c),
   df.rows.map (fun r => r.map (fun kv => if kv.1 = a then (b, kv.2) else kv))⟩

/-- `df[c] = df[c].apply(f)` for a column known to exist. -/
def mapCol (df : DataFrame) (c : String) (f : PyVal → PyVal) : DataFrame :=
  ⟨df.cols, df.rows.map (fun r => r.set c (f (r.getD c)))⟩

/-- `df[dst] = df[src].apply(f)`: raises `KeyError` when `src` is absent. -/
def applyNewCol (df : DataFrame) (src dst : String) (f : PyVal → PyVal) :
    Except PErr DataFrame :=
  if df.hasCol src then
    .ok ⟨if df.cols.contains dst then df.cols else df.cols ++ [dst],
         df.rows.map (fun r => r.set dst (f (r.getD src)))⟩
  else .error (.keyError src)

/-- `df[c] = v` with a scalar: a constant column. -/
def setConstCol (df : DataFrame) (c : String) (v : PyVal) : DataFrame :=
  ⟨if df.cols.contains c then df.cols else df.cols ++ [c],
   df.rows.map (fun r => r.set c v)⟩

/-! ### PyArrow schemas and `apply_pyarrow_schema` -/

inductive PType where
  | pInt32
  | pString
deriving DecidableEq, Repr

structure Field where
  name : String
  dtype : PType
  nullable : Bool
deriving DecidableEq, Repr

/-- `PARQUET_SCHEMAS`, transcribed field by field from the script. -/
def PARQUET_SCHEMAS (table : String) : List Field :=
  match table with
  | "categories" =>
      [⟨"id", .pInt32, false⟩, ⟨"supercategory", .pString, true⟩,
       ⟨"name", .pString, true⟩]
  | "videos" =>
      [⟨"id", .pInt32, false⟩, ⟨"height", .pInt32, false⟩,
       ⟨"width", .pInt32, false⟩, ⟨"name", .pString, false⟩]
  | "images" =>
      [⟨"id", .pInt32, false⟩, ⟨"file_name", .pString, false⟩,
       ⟨"file_path", .pString, true⟩, ⟨"date_time", .pString, true⟩,
       ⟨"height", .pInt32, false⟩, ⟨"width", .pInt32, false⟩,
       ⟨"video_id", .pInt32, false⟩, ⟨"frame_index", .pInt32, true⟩,
       ⟨"dataset_split", .pString, true⟩, ⟨"source", .pString, true⟩,
       ⟨"meta", .pString, true⟩]
  | "annotations" =>
      [⟨"id", .pInt32, false⟩, ⟨"image_id", .pInt32, false⟩,
       ⟨"category_id", .pInt32, false⟩, ⟨"video_id", .pInt32, false⟩,
       ⟨"track_id", .pInt32, false⟩, ⟨"area", .pInt32, false⟩,
       ⟨"bbox_x", .pInt32, false⟩, ⟨"bbox_y", .pInt32, false⟩,
       ⟨"bbox_width", .pInt32, false⟩, ⟨"bbox_height", .pInt32, false⟩]
  | "tracks" =>
      [⟨"id", .pInt32, false⟩, ⟨"category_id", .pInt32, false⟩,
       ⟨"video_id", .pInt32, false⟩]
  | _ => []

/-- The two exception classes `Table.from_pandas` raises on a cell it
cannot coerce: `ArrowInvalid` (a `ValueError`) and `ArrowTypeError`
(a `TypeError`). -/
inductive ArrowErr where
  | invalid
  | typeErr
deriving DecidableEq, Repr

/-- Coercion of one cell to a schema field's arrow type, as
`pa.Table.from_pandas` performs it: a null cell is accepted only for a
nullable field (else `ArrowInvalid`); an integer must fit `int32`, and
no other value converts to an integer column (`ArrowInvalid`, "Could
not convert … tried to convert to int32"); a string cell matches a
string field, while any other non-null value in a string column raises
`ArrowTypeError` ("Expected bytes, got a '…' object"). -/
def coerceVal (f : Field) (v : PyVal) : Except ArrowErr PyVal :=
  match v, f.dtype with
  | .vNull, _ => if f.nullable then .ok .vNull else .error .invalid
  | .vInt n, .pInt32 =>
      if -(2 ^ 31) ≤ n ∧ n < 2 ^ 31 then .ok (.vInt n) else .error .invalid
  | .vStr s, .pString => .ok (.vStr s)
  | _, .pInt32 => .error .invalid
  | _, .pString => .error .typeErr

/-- One row coerced to the schema, in schema column order. -/
def coerceRow (r : Record) : List Field → Except ArrowErr Record
  | [] => .ok []
  | f :: fs =>
      match coerceVal f (r.getD f.name), coerceRow r fs with
      | .ok v, .ok r2 => .ok ((f.name, v) :: r2)
      | .error e, _ => .error e
      | _, .error e => .error e

/-- Every row coerced, or the first failure.  (`from_pandas` converts
column by column; this visits rows outer and schema fields inner, which
raises the same exception class whenever a single cell fails.) -/
def coerceRows (schema : List Field) : List Record → Except ArrowErr (List Record)
  | [] => .ok []
  | r :: rs =>
      match coerceRow r schema, coerceRows schema rs with
      | .ok r2, .ok rs2 => .ok (r2 :: rs2)
      | .error e, _ => .error e
      | _, .error e => .error e

/-- `apply_pyarrow_schema`: first the explicit missing-column check
(raising `ValueError` when any schema column — nullable or not — is
absent from the DataFrame), then the `from_pandas` conversion, which
reorders the columns to schema order and coerces every cell, raising
`ArrowInvalid` or `ArrowTypeError` on a cell it cannot coerce. -/
def apply_pyarrow_schema (df : DataFrame) (table_name : String) :
    Except PErr DataFrame :=
  let schema := PARQUET_SCHEMAS table_name
  let missing := (schema.map Field.name).filter (fun n => !df.hasCol n)
  if missing.isEmpty then
    match coerceRows schema df.rows with
    | .ok rows => .ok ⟨schema.map Field.name, rows⟩
    | .error .invalid => .error (.arrowInvalid table_name)
    | .error .typeErr => .error (.arrowTypeError table_name)
  else .error (.missingColumns table_name missing)

/-! ### `df.groupby`

pandas `groupby` (with its default `sort=True`) iterates the distinct
key values in ascending order, each with the sub-DataFrame of the rows
carrying that key.  All three partitioned tables group on `int32`
foreign-key columns, so keys are read as integers. -/

/-- Sorted insertion, parameterised by a boolean `le`. -/
def insertLe {α : Type} (le : α → α → Bool) (x : α) : List α → List α
  | [] => [x]
  | y :: ys => if le x y then x :: y :: ys else y :: insertLe le x ys

/-- Insertion sort (used to model `groupby`'s sorted key order). -/
def sortLe {α : Type} (le : α → α → Bool) (l : List α) : List α :=
  l.foldr (insertLe le) []

/-- The integer a cell holds (`groupby` keys are `int32` columns). -/
def colInt (r : Record) (c : String) : Int :=
  match r.getD c with
  | .vInt n => n
  | _ => 0

/-- The rows for each key of `ks`, in the order of `ks`. -/
def groupsFor {κ : Type} [DecidableEq κ] (key : Record → κ) (ks : List κ)
    (rows : List Record) : List (κ × List Record) :=
  ks.map (fun k => (k, rows.filter (fun r => decide (key r = k))))

/-- `df.groupby(c)`: the distinct values of column `c` in ascending
order, each with the sub-DataFrame of its rows. -/
def groupByCol (df : DataFrame) (c : String) : List (Int × DataFrame) :=
  (groupsFor (fun r => colInt r c)
      (sortLe (fun a b => decide (a ≤ b)) ((df.rows.map (fun r => colInt r c)).dedup))
      df.rows).map
    (fun kg => (kg.1, ⟨df.cols, kg.2⟩))

/-- Lexicographic order on key pairs, as `groupby([c1, c2])` sorts. -/
def pairLe (a b : Int × Int) : Bool :=
  decide (a.1 < b.1) || (decide (a.1 = b.1) && decide (a.2 ≤ b.2))

/-- `df.groupby([c1, c2])`. -/
def groupByCols2 (df : DataFrame) (c1 c2 : String) : List ((Int × Int) × DataFrame) :=
  (groupsFor (fun r => (colInt r c1, colInt r c2))
      (sortLe pairLe ((df.rows.map (fun r => (colInt r c1, colInt r c2))).dedup))
      df.rows).map
    (fun kg => (kg.1, ⟨df.cols, kg.2⟩))

/-! ### The five entity processors

Each returns the list of `(path, table)` files it writes, or the
exception it raises.  Paths are lists of segments below the output
directory.  Logging is dropped; `mkdir(exist_ok=True)` and
`to_parquet` are the file writes the pipeline performs. -/

/-- One `(path, contents)` parquet write. -/
abbrev FileWrite := List String × DataFrame

/-- `data.get(key, [])` followed by `pd.DataFrame(...)`'s view of the
elements: the named top-level list's records ( `[]` when the key is
absent). -/
def getRecords (doc : Record) (key : String) : List Record :=
  match doc.lookup key with
  | some (.vList xs) =>
      xs.map (fun v => match v with | .vObj fs => fs | _ => [])
  | _ => []

/-- `process_categories`. -/
def process_categories (data : Record) : Except PErr (List FileWrite) := do
  let categories := getRecords data "categories"
  let df := mkDataFrame categories
  let df ← selectCols df ["id", "supercategory", "name"]
  let df ← apply_pyarrow_schema df "categories"
  return [(["categories.parquet"], df)]

/-- `process_videos`: note the rename of the literal key `"name:"`. -/
def process_videos (data : Record) : Except PErr (List FileWrite) := do
  let videos := getRecords data "videos"
  let df := mkDataFrame videos
  let df := if df.hasCol "name:" then renameCol df "name:" "name" else df
  let required_cols := ["id", "height", "width", "name"]
  let available_cols := required_cols.filter df.hasCol
  let df ← selectCols df available_cols
  let df ← apply_pyarrow_schema df "videos"
  return [(["videos.parquet"], df)]

/-- The lambda `lambda x: json.dumps(x) if x else None` applied to the
nested `source` / `meta` cells. -/
def serializeNested (x : PyVal) : PyVal :=
  if pyTruthy x then .vStr (jsonDumps x) else .vNull

/-- The partition file `process_images` writes for one `video_id` group. -/
def imagesPartitionFile (kg : Int × DataFrame) : FileWrite :=
  (["images.parquet", "video_id=" ++ toString kg.1,
    "video_" ++ toString kg.1 ++ "_images.parquet"], kg.2)

/-- `process_images` up to (and including) `apply_pyarrow_schema`: the
full projected images table before partitioning. -/
def imagesTable (data : Record) (dataset_split : String) : Except PErr DataFrame := do
  let images := getRecords data "images"
  let df := mkDataFrame images
  let df := if df.hasCol "source" then mapCol df "source" serializeNested else df
  let df := if df.hasCol "meta" then mapCol df "meta" serializeNested else df
  let df ← applyNewCol df "file_name" "file_path"
      (fun x => .vStr ("data/images/" ++ dataset_split ++ "/" ++ pyStr x))
  let df := setConstCol df "dataset_split" (.vStr dataset_split)
  let required_cols := ["id", "file_name", "file_path", "date_time", "height",
      "width", "video_id", "frame_index", "dataset_split", "source", "meta"]
  let available_cols := required_cols.filter df.hasCol
  let df ← selectCols df available_cols
  apply_pyarrow_schema df "images"

/-- `process_images`: the images table partitioned by `video_id`. -/
def process_images (data : Record) (dataset_split : String) :
    Except PErr (List FileWrite) := do
  let df ← imagesTable data dataset_split
  return (groupByCol df "video_id").map imagesPartitionFile

/-- `pd.DataFrame(df['bbox'].tolist(), columns=[...])` concatenated in
place of the dropped `bbox` column.  pandas raises a `ValueError` when
the arrays do not line up with the four column names. -/
def destructureBbox (df : DataFrame) : Except PErr DataFrame :=
  if df.hasCol "bbox" then
    if df.rows.all (fun r =>
        match r.getD "bbox" with
        | .vList xs => xs.length = 4
        | _ => false) then
      .ok ⟨(df.cols.erase "bbox") ++ ["bbox_x", "bbox_y", "bbox_width", "bbox_height"],
           df.rows.map (fun r =>
             (r.eraseKey "bbox") ++
               (["bbox_x", "bbox_y", "bbox_width", "bbox_height"].zip
                 (match r.getD "bbox" with | .vList xs => xs | _ => [])))⟩
    else .error (.shapeError "bbox")
  else .ok df

/-- The partition file `process_annotations` writes for one
`(category_id, track_id)` group. -/
def annotationsPartitionFile (kg : (Int × Int) × DataFrame) : FileWrite :=
  (["annotations.parquet",
    "category_id=" ++ toString kg.1.1,
    "track_id=" ++ toString kg.1.2,
    "category_" ++ toString kg.1.1 ++ "_track_" ++ toString kg.1.2 ++
      "_annotations.parquet"], kg.2)

/-- `process_annotations` up to (and including) `apply_pyarrow_schema`. -/
def annotationsTable (data : Record) : Except PErr DataFrame := do
  let anns := getRecords data "annotations"
  let df := mkDataFrame anns
  let df ← destructureBbox df
  let all_required_cols := ["id", "image_id", "category_id", "video_id",
      "track_id", "area", "bbox_x", "bbox_y", "bbox_width", "bbox_height"]
  let available_cols := all_required_cols.filter df.hasCol
  let df ← selectCols df available_cols
  apply_pyarrow_schema df "annotations"

/-- `process_annotations`: partitioned by `category_id` and `track_id`. -/
def process_annotations (data : Record) : Except PErr (List FileWrite) := do
  let df ← annotationsTable data
  return (groupByCols2 df "category_id" "track_id").map annotationsPartitionFile

/-- The partition file `process_tracks` writes for one `category_id` group. -/
def tracksPartitionFile (kg : Int × DataFrame) : FileWrite :=
  (["tracks.parquet", "category_id=" ++ toString kg.1,
    "category_" ++ toString kg.1 ++ "_tracks.parquet"], kg.2)

/-- `process_tracks` from the DataFrame construction onward (the code
past the `if not tracks:` guard). -/
def tracksTable (data : Record) : Except PErr DataFrame := do
  let df := mkDataFrame (getRecords data "tracks")
  let df ← selectCols df ["id", "category_id", "video_id"]
  apply_pyarrow_schema df "tracks"

/-- `process_tracks`: an absent or empty `tracks` list is skipped with a
warning (no file, no error); otherwise partitioned by `category_id`. -/
def process_tracks (data : Record) : Except PErr (List FileWrite) :=
  if (getRecords data "tracks").isEmpty then .ok []
  else do
    let df ← tracksTable data
    return (groupByCol df "category_id").map tracksPartitionFile

/-! ### The driver (`main`)

Per input document the five processors run in a fixed order; within one
table every file write happens only after `apply_pyarrow_schema`
succeeded, so a failing table writes nothing, and a failure stops the
remaining tables for that document.  `main` catches `ValueError`
(re-raised: the whole batch stops) separately from other exceptions
(logged: the batch continues with the next file). -/

/-- The parquet writes a document produces, with the exception (if any)
that stopped it: preceding tables' files are already on disk when a
later table fails. -/
def documentWrites (data : Record) (dataset_split : String) :
    List FileWrite × Option PErr :=
  match process_categories data with
  | .error e => ([], some e)
  | .ok w1 =>
    match process_videos data with
    | .error e => (w1, some e)
    | .ok w2 =>
      match process_images data dataset_split with
      | .error e => (w1 ++ w2, some e)
      | .ok w3 =>
        match process_annotations data with
        | .error e => (w1 ++ w2 ++ w3, some e)
        | .ok w4 =>
          match process_tracks data with
          | .error e => (w1 ++ w2 ++ w3 ++ w4, some e)
          | .ok w5 => (w1 ++ w2 ++ w3 ++ w4 ++ w5, none)

/-- What `main`'s per-file handlers do with an exception: `except
ValueError: raise` stops the whole batch, `except Exception: continue`
moves to the next input file. -/
inductive DriverAction where
  | stopBatch
  | skipToNextFile
deriving DecidableEq, Repr

def driverAction (e : PErr) : DriverAction :=
  if isValueError e then .stopBatch else .skipToNextFile

/-! ### The output directory as a store -/

/-- The output directory: contents by path.  `to_parquet`
unconditionally overwrites the path it is given. -/
abbrev FileSystem : Type := List String → Option DataFrame

def writeFile (fs : FileSystem) (w : FileWrite) : FileSystem :=
  fun q => if q = w.1 then some w.2 else fs q

def writeAll (fs : FileSystem) (ws : List FileWrite) : FileSystem :=
  ws.foldl writeFile fs

/-- One run of the pipeline over one document: every table file the
document produces is written (overwriting) into the output directory. -/
def runPipeline (fs : FileSystem) (data : Record) (dataset_split : String) :
    FileSystem :=
  writeAll fs (documentWrites data dataset_split).1

/-! ## Verification -/

theorem insertLe_perm {α : Type} (le : α → α → Bool) (x : α) (l : List α) :
    (insertLe le x l).Perm (x :: l) := by
  induction l with
  | nil => exact List.Perm.refl _
  | cons y ys ih =>
      simp only [insertLe]
      split
      · exact List.Perm.refl _
      · exact (ih.cons y).trans (List.Perm.swap x y ys)

theorem sortLe_perm {α : Type} (le : α → α → Bool) (l : List α) :
    (sortLe le l).Perm l := by
  induction l with
  | nil => exact List.Perm.refl _
  | cons x xs ih => exact (insertLe_perm le x (sortLe le xs)).trans (ih.cons x)

theorem mem_sortLe {α : Type} (le : α → α → Bool) (l : List α) (x : α) :
    x ∈ sortLe le l ↔ x ∈ l :=
  (sortLe_perm le l).mem_iff

theorem nodup_sortLe {α : Type} (le : α → α → Bool) (l : List α) (h : l.Nodup) :
    (sortLe le l).Nodup :=
  (sortLe_perm le l).nodup_iff.mpr h

theorem groupsFor_keys {κ : Type} [DecidableEq κ] (key : Record → κ)
    (ks : List κ) (rows : List Record) :
    (groupsFor key ks rows).map Prod.fst = ks := by
  simp [groupsFor, List.map_map, Function.comp_def]

theorem groupsFor_key_eq {κ : Type} [DecidableEq κ] (key : Record → κ)
    (ks : List κ) (rows : List Record) :
    ∀ kg ∈ groupsFor key ks rows, ∀ r ∈ kg.2, key r = kg.1 := by
  intro kg hkg r hr
  obtain ⟨k, _, rfl⟩ := List.mem_map.mp hkg
  simpa using (List.mem_filter.mp hr).2

theorem groupsFor_disjoint {κ : Type} [DecidableEq κ] (key : Record → κ)
    (ks : List κ) (rows : List Record) :
    ∀ kg1 ∈ groupsFor key ks rows, ∀ kg2 ∈ groupsFor key ks rows,
      ∀ r ∈ kg1.2, r ∈ kg2.2 → kg1 = kg2 := by
  intro kg1 h1 kg2 h2 r hr1 hr2
  obtain ⟨k1, _, rfl⟩ := List.mem_map.mp h1
  obtain ⟨k2, _, rfl⟩ := List.mem_map.mp h2
  have e1 : key r = k1 := by simpa using (List.mem_filter.mp hr1).2
  have e2 : key r = k2 := by simpa using (List.mem_filter.mp hr2).2
  rw [← e1, ← e2]

theorem groupsFor_flatten_perm {κ : Type} [DecidableEq κ] (key : Record → κ) :
    ∀ (ks : List κ) (rows : List Record), ks.Nodup →
      (∀ r ∈ rows, key r ∈ ks) →
      (((groupsFor key ks rows).map Prod.snd).flatten).Perm rows := by
  intro ks
  induction ks with
  | nil =>
      intro rows _ hcov
      have : rows = [] :=
        List.eq_nil_iff_forall_not_mem.mpr (fun r hr => by simpa using hcov r hr)
      simp [groupsFor, this]
  | cons k ks ih =>
      intro rows hnd hcov
      have hk : k ∉ ks := (List.nodup_cons.mp hnd).1
      have hks : ks.Nodup := (List.nodup_cons.mp hnd).2
      -- rows with key different from `k`
      set rest := rows.filter (fun r => !decide (key r = k)) with hrest
      have htail : groupsFor key ks rows = groupsFor key ks rest := by
        apply List.map_congr_left
        intro k2 hk2
        have hne : k2 ≠ k := fun e => hk (e ▸ hk2)
        have : rows.filter (fun r => decide (key r = k2)) =
            rest.filter (fun r => decide (key r = k2)) := by
          rw [hrest, List.filter_filter]
          apply List.filter_congr
          intro r _
          by_cases h : key r = k2
          · simp [h, hne]
          · simp [h]
        simp [this]
      have hcov2 : ∀ r ∈ rest, key r ∈ ks := by
        intro r hr
        have hm := List.mem_filter.mp hr
        have : key r ∈ k :: ks := hcov r hm.1
        rcases List.mem_cons.mp this with h | h
        · exact absurd (by simpa using hm.2) (by simp [h])
        · exact h
      have step1 : (((groupsFor key (k :: ks) rows).map Prod.snd).flatten) =
          rows.filter (fun r => decide (key r = k)) ++
            ((groupsFor key ks rest).map Prod.snd).flatten := by
        rw [show groupsFor key (k :: ks) rows =
            (k, rows.filter (fun r => decide (key r = k))) :: groupsFor key ks rows from rfl]
        rw [htail, List.map_cons, List.flatten_cons]
      have step2 : ((rows.filter (fun r => decide (key r = k)) ++
            ((groupsFor key ks rest).map Prod.snd).flatten)).Perm
          (rows.filter (fun r => decide (key r = k)) ++ rest) :=
        List.Perm.append_left _ (ih rest hks hcov2)
      have step3 : ((rows.filter (fun r => decide (key r = k)) ++ rest)).Perm rows := by
        rw [hrest]
        exact List.filter_append_perm _ rows
      rw [step1]
      exact step2.trans step3

/-- The three partition facts of one grouped table: the groups' rows
together are exactly the table's rows; group keys are pairwise
distinct; each row lies in the group of its own key; and no row lies in
two different groups. -/
def groupPartition {κ : Type} (gs : List (κ × DataFrame)) (key : Record → κ)
    (rows : List Record) : Prop :=
  ((gs.map (fun g => g.2.rows)).flatten).Perm rows
  ∧ (gs.map Prod.fst).Nodup
  ∧ (∀ g ∈ gs, ∀ r ∈ g.2.rows, key r = g.1)
  ∧ (∀ g1 ∈ gs, ∀ g2 ∈ gs, ∀ r ∈ g1.2.rows, r ∈ g2.2.rows → g1 = g2)

theorem groupByCol_partition (df : DataFrame) (c : String) :
    groupPartition (groupByCol df c) (fun r => colInt r c) df.rows := by
  unfold groupByCol
  set ks := sortLe (fun a b => decide (a ≤ b))
      ((df.rows.map (fun r => colInt r c)).dedup) with hks
  have hnd : ks.Nodup := nodup_sortLe _ _ (List.nodup_dedup _)
  have hcov : ∀ r ∈ df.rows, colInt r c ∈ ks := by
    intro r hr
    rw [hks, mem_sortLe, List.mem_dedup]
    exact List.mem_map.mpr ⟨r, hr, rfl⟩
  refine ⟨?_, ?_, ?_, ?_⟩
  · have := groupsFor_flatten_perm (fun r => colInt r c) ks df.rows hnd hcov
    simpa [List.map_map, Function.comp_def] using this
  · have h2 : ((groupsFor (fun r => colInt r c) ks df.rows).map Prod.fst).Nodup := by
      rw [groupsFor_keys]; exact hnd
    simpa [List.map_map, Function.comp_def] using h2
  · intro g hg r hr
    obtain ⟨kg, hkg, rfl⟩ := List.mem_map.mp hg
    exact groupsFor_key_eq _ ks df.rows kg hkg r hr
  · intro g1 hg1 g2 hg2 r hr1 hr2
    obtain ⟨kg1, hkg1, rfl⟩ := List.mem_map.mp hg1
    obtain ⟨kg2, hkg2, rfl⟩ := List.mem_map.mp hg2
    rw [groupsFor_disjoint _ ks df.rows kg1 hkg1 kg2 hkg2 r hr1 hr2]

theorem groupByCols2_partition (df : DataFrame) (c1 c2 : String) :
    groupPartition (groupByCols2 df c1 c2)
      (fun r => (colInt r c1, colInt r c2)) df.rows := by
  unfold groupByCols2
  set ks := sortLe pairLe
      ((df.rows.map (fun r => (colInt r c1, colInt r c2))).dedup) with hks
  have hnd : ks.Nodup := nodup_sortLe _ _ (List.nodup_dedup _)
  have hcov : ∀ r ∈ df.rows, (colInt r c1, colInt r c2) ∈ ks := by
    intro r hr
    rw [hks, mem_sortLe, List.mem_dedup]
    exact List.mem_map.mpr ⟨r, hr, rfl⟩
  refine ⟨?_, ?_, ?_, ?_⟩
  · have := groupsFor_flatten_perm (fun r => (colInt r c1, colInt r c2))
      ks df.rows hnd hcov
    simpa [List.map_map, Function.comp_def] using this
  · have h2 : ((groupsFor (fun r => (colInt r c1, colInt r c2)) ks df.rows).map
        Prod.fst).Nodup := by
      rw [groupsFor_keys]; exact hnd
    simpa [List.map_map, Function.comp_def] using h2
  · intro g hg r hr
    obtain ⟨kg, hkg, rfl⟩ := List.mem_map.mp hg
    exact groupsFor_key_eq _ ks df.rows kg hkg r hr
  · intro g1 hg1 g2 hg2 r hr1 hr2
    obtain ⟨kg1, hkg1, rfl⟩ := List.mem_map.mp hg1
    obtain ⟨kg2, hkg2, rfl⟩ := List.mem_map.mp hg2
    rw [groupsFor_disjoint _ ks df.rows kg1 hkg1 kg2 hkg2 r hr1 hr2]

/-- The content the last write to path `p` in `ws` leaves, if any. -/
def lastWrite : List FileWrite → List String → Option DataFrame
  | [], _ => none
  | w :: ws, p =>
      match lastWrite ws p with
      | some d => some d
      | none => if p = w.1 then some w.2 else none

theorem writeAll_apply : ∀ (ws : List FileWrite) (fs : FileSystem) (p : List String),
    writeAll fs ws p =
      match lastWrite ws p with
      | some d => some d
      | none => fs p := by
  intro ws
  induction ws with
  | nil => intro fs p; rfl
  | cons w ws ih =>
      intro fs p
      have : writeAll fs (w :: ws) = writeAll (writeFile fs w) ws := rfl
      rw [this, ih]
      cases h : lastWrite ws p with
      | some d => simp [lastWrite, h]
      | none =>
          simp only [lastWrite, h, writeFile]
          by_cases hpw : p = w.1 <;> simp [hpw]

/-! ### Concrete input documents used below -/

/-- An input whose single image record carries every schema column
except the nullable `frame_index`. -/
def imagesNoFrameIndexDoc : Record :=
  [("images", .vList [.vObj
    [("id", .vInt 1), ("file_name", .vStr "a.jpg"),
     ("date_time", .vStr "2020-08-27T12:00:00"),
     ("height", .vInt 480), ("width", .vInt 640), ("video_id", .vInt 7),
     ("source", .vNull), ("meta", .vNull)]])]

/-- The spec's images example record, exactly as given:
`{"id":1,"file_name":"a.jpg","height":480,"width":640,"video_id":7,"frame_index":0}`. -/
def specImagesExampleDoc : Record :=
  [("images", .vList [.vObj
    [("id", .vInt 1), ("file_name", .vStr "a.jpg"), ("height", .vInt 480),
     ("width", .vInt 640), ("video_id", .vInt 7), ("frame_index", .vInt 0)]])]

/-- The spec's annotation example record, exactly as given. -/
def specAnnotationExampleDoc : Record :=
  [("annotations", .vList [.vObj
    [("id", .vInt 1), ("image_id", .vInt 1), ("category_id", .vInt 2),
     ("video_id", .vInt 7), ("track_id", .vInt 5), ("area", .vInt 100),
     ("bbox", .vList [.vInt 1, .vInt 2, .vInt 3, .vInt 4])]])]

/-! ### The claims -/

/-- Claim C1 (code bug, failing input): the claim says an images input
whose records all lack an optional nullable column (here `frame_index`;
every other schema column is present) still produces the images table
with that column null.  The code instead raises
`ValueError("Missing required columns …: {frame_index}")` — the missing
check in `apply_pyarrow_schema` ranges over every schema field, nullable
ones included — and the images table aborts with no file. -/
theorem images_missing_optional_column_aborts :
    process_images imagesNoFrameIndexDoc "train" =
      .error (.missingColumns "images" ["frame_index"]) := by decide

/-- Claim C6 (code bug, failing input): on the spec's own images example
(with split `train`) the code aborts with a missing-column `ValueError`
for the absent nullable columns `date_time`, `source` and `meta` instead
of producing the one-row `video_id=7` partition file the claim
describes. -/
theorem images_spec_example_aborts :
    process_images specImagesExampleDoc "train" =
      .error (.missingColumns "images" ["date_time", "source", "meta"]) := by decide

/-- Claim C5: the spec's single-annotation example yields exactly one
output row with `bbox_x=1, bbox_y=2, bbox_width=3, bbox_height=4`, the
original `bbox` array column dropped (the emitted columns are exactly
the schema's), under partition path `category_id=2/track_id=5`. -/
theorem annotation_bbox_example :
    process_annotations specAnnotationExampleDoc =
      .ok [(["annotations.parquet", "category_id=2", "track_id=5",
             "category_2_track_5_annotations.parquet"],
            ⟨["id", "image_id", "category_id", "video_id", "track_id", "area",
              "bbox_x", "bbox_y", "bbox_width", "bbox_height"],
             [[("id", .vInt 1), ("image_id", .vInt 1), ("category_id", .vInt 2),
               ("video_id", .vInt 7), ("track_id", .vInt 5), ("area", .vInt 100),
               ("bbox_x", .vInt 1), ("bbox_y", .vInt 2), ("bbox_width", .vInt 3),
               ("bbox_height", .vInt 4)]]⟩)] := by decide

/-- Claim C4 (counterexample): on the empty document every entity list
is absent, yet nothing is "skipped with a warning while processing
continues": the very first processor (`process_categories`) raises a
`KeyError` on its column projection and the document aborts with zero
files written. -/
theorem empty_doc_categories_error :
    documentWrites [] "train" = ([], some (.keyError "id")) := by decide

/-- Claim C4 (amended): only the `tracks` entity is skipped (no file,
no error) when its list is absent or empty; for `categories`, `videos`,
`images` and `annotations` an absent or empty list instead makes that
entity's processing raise an exception — a pandas `KeyError` from the
column projection (categories, images) or the missing-column
`ValueError` from `apply_pyarrow_schema` (videos, annotations). -/
theorem empty_list_behavior_per_entity (doc : Record) (split : String)
    (hc : getRecords doc "categories" = [])
    (hv : getRecords doc "videos" = [])
    (hi : getRecords doc "images" = [])
    (ha : getRecords doc "annotations" = [])
    (ht : getRecords doc "tracks" = []) :
    process_tracks doc = .ok []
    ∧ process_categories doc = .error (.keyError "id")
    ∧ process_videos doc =
        .error (.missingColumns "videos" ["id", "height", "width", "name"])
    ∧ process_images doc split = .error (.keyError "file_name")
    ∧ process_annotations doc =
        .error (.missingColumns "annotations"
          ["id", "image_id", "category_id", "video_id", "track_id", "area",
           "bbox_x", "bbox_y", "bbox_width", "bbox_height"]) := by
  refine ⟨?_, ?_, ?_, ?_, ?_⟩
  · simp [process_tracks, ht]
  · simp only [process_categories, hc]; rfl
  · simp only [process_videos, hv]; rfl
  · simp only [process_images, imagesTable, hi]; rfl
  · simp only [process_annotations, annotationsTable, ha]; rfl

theorem empty_list_behavior_per_entity_witness :
    process_tracks [] = .ok []
    ∧ process_categories [] = .error (.keyError "id")
    ∧ process_videos [] =
        .error (.missingColumns "videos" ["id", "height", "width", "name"])
    ∧ process_images [] "train" = .error (.keyError "file_name")
    ∧ process_annotations [] =
        .error (.missingColumns "annotations"
          ["id", "image_id", "category_id", "video_id", "track_id", "area",
           "bbox_x", "bbox_y", "bbox_width", "bbox_height"]) :=
  empty_list_behavior_per_entity [] "train" rfl rfl rfl rfl rfl

theorem hasCol_eq_false (df : DataFrame) (c : String) (h : c ∉ df.cols) :
    df.hasCol c = false := by
  simpa [DataFrame.hasCol] using h

theorem lookup_isSome_of_mem :
    ∀ (r : Record) (k : String) (v : PyVal), (k, v) ∈ r → (r.lookup k).isSome := by
  intro r
  induction r with
  | nil => intro k v h; cases h
  | cons kv t ih =>
      intro k v h
      rcases kv with ⟨k2, v2⟩
      by_cases hk : k = k2
      · subst hk; simp [List.lookup]
      · have hb : (k == k2) = false := beq_eq_false_iff_ne.mpr hk
        have ht : (k, v) ∈ t := by
          rcases List.mem_cons.mp h with he | ht
          · exact absurd (congrArg Prod.fst he) hk
          · exact ht
        simpa [List.lookup, hb] using ih k v ht

/-- A column no record carries is not inferred by `pd.DataFrame`. -/
theorem not_mem_colsOfRecords (c : String) (rs : List Record)
    (h : ∀ r ∈ rs, r.lookup c = none) : c ∉ colsOfRecords rs := by
  intro hmem
  rw [colsOfRecords, List.mem_dedup, List.mem_flatten] at hmem
  obtain ⟨l, hl, hcl⟩ := hmem
  obtain ⟨r, hr, rfl⟩ := List.mem_map.mp hl
  obtain ⟨kv, hkv, hfst⟩ := List.mem_map.mp hcl
  rcases kv with ⟨k, v⟩
  cases hfst
  have := lookup_isSome_of_mem r k v hkv
  rw [h r hr] at this
  cases this

/-- Destructuring `bbox` only adds the four `bbox_*` columns. -/
theorem destructureBbox_cols (df df2 : DataFrame) (c : String)
    (h : destructureBbox df = .ok df2) (hc1 : c ∉ df.cols)
    (hc2 : c ∉ ["bbox_x", "bbox_y", "bbox_width", "bbox_height"]) :
    c ∉ df2.cols := by
  unfold destructureBbox at h
  split at h
  · split at h
    · injection h with h2
      subst h2
      intro hmem
      rcases List.mem_append.mp hmem with hm | hm
      · exact hc1 (List.mem_of_mem_erase hm)
      · exact hc2 hm
    · cases h
  · injection h with h2
    subst h2
    exact hc1

/-- Projecting onto the columns that exist never raises. -/
theorem selectCols_filter (df : DataFrame) (sel : List String) :
    selectCols df (sel.filter df.hasCol) =
      .ok ⟨sel.filter df.hasCol, df.rows⟩ := by
  have hfind : (sel.filter df.hasCol).find? (fun c => !df.hasCol c) = none :=
    List.find?_eq_none.mpr (fun x hx => by
      have := (List.mem_filter.mp hx).2
      simp [this])
  simp [selectCols, hfind]

/-- A schema column the DataFrame lacks makes `apply_pyarrow_schema`
raise its missing-column `ValueError`. -/
theorem apply_schema_error_of_missing (df : DataFrame) (tbl : String) (c : String)
    (hc : c ∈ (PARQUET_SCHEMAS tbl).map Field.name) (hn : df.hasCol c = false) :
    apply_pyarrow_schema df tbl =
      .error (.missingColumns tbl
        (((PARQUET_SCHEMAS tbl).map Field.name).filter (fun n => !df.hasCol n))) := by
  have hmem : c ∈ ((PARQUET_SCHEMAS tbl).map Field.name).filter
      (fun n => !df.hasCol n) :=
    List.mem_filter.mpr ⟨hc, by simp [hn]⟩
  have hne : (((PARQUET_SCHEMAS tbl).map Field.name).filter
      (fun n => !df.hasCol n)).isEmpty = false := by
    cases hcase : (((PARQUET_SCHEMAS tbl).map Field.name).filter
        (fun n => !df.hasCol n)).isEmpty
    · rfl
    · rw [List.isEmpty_iff.mp hcase] at hmem
      cases hmem
  simp [apply_pyarrow_schema, hne]

/-- When no annotation record carries `category_id`, the annotations
table never passes `apply_pyarrow_schema`. -/
theorem annotationsTable_missing_category (doc : Record)
    (h : ∀ r ∈ getRecords doc "annotations", r.lookup "category_id" = none) :
    ∃ e, annotationsTable doc = .error e := by
  have hnc : "category_id" ∉ colsOfRecords (getRecords doc "annotations") :=
    not_mem_colsOfRecords _ _ h
  cases hdb : destructureBbox (mkDataFrame (getRecords doc "annotations")) with
  | error e => exact ⟨e, by simp only [annotationsTable, hdb]; rfl⟩
  | ok df1 =>
      have h1 : "category_id" ∉ df1.cols :=
        destructureBbox_cols _ df1 _ hdb hnc (by decide)
      have h1b : df1.hasCol "category_id" = false := hasCol_eq_false df1 _ h1
      have h2 : (DataFrame.mk (List.filter df1.hasCol
          ["id", "image_id", "category_id", "video_id", "track_id", "area",
           "bbox_x", "bbox_y", "bbox_width", "bbox_height"]) df1.rows).hasCol
          "category_id" = false := by
        apply hasCol_eq_false
        intro hmem
        have := (List.mem_filter.mp hmem).2
        rw [h1b] at this
        cases this
      have happ := apply_schema_error_of_missing
        (DataFrame.mk (List.filter df1.hasCol
          ["id", "image_id", "category_id", "video_id", "track_id", "area",
           "bbox_x", "bbox_y", "bbox_width", "bbox_height"]) df1.rows)
        "annotations" "category_id" (by decide) h2
      have hfinal : annotationsTable doc = .error
          (.missingColumns "annotations"
            (((PARQUET_SCHEMAS "annotations").map Field.name).filter
              (fun n => !(DataFrame.mk (List.filter df1.hasCol
                ["id", "image_id", "category_id", "video_id", "track_id", "area",
                 "bbox_x", "bbox_y", "bbox_width", "bbox_height"])
                df1.rows).hasCol n))) := by
        simp only [annotationsTable, hdb]
        show Except.bind (selectCols df1 (List.filter df1.hasCol
            ["id", "image_id", "category_id", "video_id", "track_id", "area",
             "bbox_x", "bbox_y", "bbox_width", "bbox_height"]))
            (fun df => apply_pyarrow_schema df "annotations") = _
        rw [selectCols_filter df1]
        exact happ
      exact ⟨_, hfinal⟩

theorem process_categories_shape (doc : Record) (ws : List FileWrite)
    (h : process_categories doc = .ok ws) :
    ∃ df, ws = [(["categories.parquet"], df)] := by
  simp only [process_categories, bind, Except.bind, pure, Except.pure] at h
  split at h
  · cases h
  · split at h
    · cases h
    · injection h with h2
      exact ⟨_, h2.symm⟩

theorem process_videos_shape (doc : Record) (ws : List FileWrite)
    (h : process_videos doc = .ok ws) :
    ∃ df, ws = [(["videos.parquet"], df)] := by
  simp only [process_videos, bind, Except.bind, pure, Except.pure] at h
  split at h
  · cases h
  · split at h
    · cases h
    · injection h with h2
      exact ⟨_, h2.symm⟩

theorem process_images_paths (doc : Record) (split : String) (ws : List FileWrite)
    (h : process_images doc split = .ok ws) :
    ∀ w ∈ ws, w.1.head? = some "images.parquet" := by
  simp only [process_images, bind, Except.bind, pure, Except.pure] at h
  split at h
  · cases h
  · injection h with h2
    subst h2
    intro w hw
    obtain ⟨kg, _, rfl⟩ := List.mem_map.mp hw
    rfl

theorem process_tracks_paths (doc : Record) (ws : List FileWrite)
    (h : process_tracks doc = .ok ws) :
    ∀ w ∈ ws, w.1.head? = some "tracks.parquet" := by
  simp only [process_tracks, bind, Except.bind, pure, Except.pure] at h
  split at h
  · injection h with h2
    subst h2
    intro w hw
    cases hw
  · split at h
    · cases h
    · injection h with h2
      subst h2
      intro w hw
      obtain ⟨kg, _, rfl⟩ := List.mem_map.mp hw
      rfl

/-- Every file a document run writes comes from one of the five
processors returning it. -/
theorem documentWrites_mem (doc : Record) (split : String) (w : FileWrite)
    (hw : w ∈ (documentWrites doc split).1) :
    (∃ ws, process_categories doc = .ok ws ∧ w ∈ ws)
    ∨ (∃ ws, process_videos doc = .ok ws ∧ w ∈ ws)
    ∨ (∃ ws, process_images doc split = .ok ws ∧ w ∈ ws)
    ∨ (∃ ws, process_annotations doc = .ok ws ∧ w ∈ ws)
    ∨ (∃ ws, process_tracks doc = .ok ws ∧ w ∈ ws) := by
  unfold documentWrites at hw
  cases h1 : process_categories doc with
  | error e1 => rw [h1] at hw; cases hw
  | ok w1 =>
    rw [h1] at hw
    cases h2 : process_videos doc with
    | error e2 =>
        rw [h2] at hw
        exact Or.inl ⟨w1, rfl, hw⟩
    | ok w2 =>
      rw [h2] at hw
      cases h3 : process_images doc split with
      | error e3 =>
          rw [h3] at hw
          rcases List.mem_append.mp hw with hm | hm
          · exact Or.inl ⟨w1, rfl, hm⟩
          · exact Or.inr (Or.inl ⟨w2, rfl, hm⟩)
      | ok w3 =>
        rw [h3] at hw
        cases h4 : process_annotations doc with
        | error e4 =>
            rw [h4] at hw
            rcases List.mem_append.mp hw with hm | hm
            · rcases List.mem_append.mp hm with hm2 | hm2
              · exact Or.inl ⟨w1, rfl, hm2⟩
              · exact Or.inr (Or.inl ⟨w2, rfl, hm2⟩)
            · exact Or.inr (Or.inr (Or.inl ⟨w3, rfl, hm⟩))
        | ok w4 =>
          rw [h4] at hw
          cases h5 : process_tracks doc with
          | error e5 =>
              rw [h5] at hw
              rcases List.mem_append.mp hw with hm | hm
              · rcases List.mem_append.mp hm with hm2 | hm2
                · rcases List.mem_append.mp hm2 with hm3 | hm3
                  · exact Or.inl ⟨w1, rfl, hm3⟩
                  · exact Or.inr (Or.inl ⟨w2, rfl, hm3⟩)
                · exact Or.inr (Or.inr (Or.inl ⟨w3, rfl, hm2⟩))
              · exact Or.inr (Or.inr (Or.inr (Or.inl ⟨w4, rfl, hm⟩)))
          | ok w5 =>
              rw [h5] at hw
              rcases List.mem_append.mp hw with hm | hm
              · rcases List.mem_append.mp hm with hm2 | hm2
                · rcases List.mem_append.mp hm2 with hm3 | hm3
                  · rcases List.mem_append.mp hm3 with hm4 | hm4
                    · exact Or.inl ⟨w1, rfl, hm4⟩
                    · exact Or.inr (Or.inl ⟨w2, rfl, hm4⟩)
                  · exact Or.inr (Or.inr (Or.inl ⟨w3, rfl, hm3⟩))
                · exact Or.inr (Or.inr (Or.inr (Or.inl ⟨w4, rfl, hm2⟩)))
              · exact Or.inr (Or.inr (Or.inr (Or.inr ⟨w5, rfl, hm⟩)))

/-- Claim C3: when the annotation records lack the required schema
column `category_id`, annotations processing aborts with an error
before any annotation write, and the document run writes no file under
`annotations.parquet` — no partial annotations output exists. -/
theorem annotations_missing_required_aborts (doc : Record) (split : String)
    (h : ∀ r ∈ getRecords doc "annotations", r.lookup "category_id" = none) :
    (∃ e, process_annotations doc = .error e)
    ∧ ∀ w ∈ (documentWrites doc split).1,
        w.1.head? ≠ some "annotations.parquet" := by
  obtain ⟨e, he⟩ := annotationsTable_missing_category doc h
  have hpa : process_annotations doc = .error e := by
    simp only [process_annotations, he]; rfl
  refine ⟨⟨e, hpa⟩, ?_⟩
  intro w hw
  rcases documentWrites_mem doc split w hw with hm | hm | hm | hm | hm
  · obtain ⟨ws, hws, hwmem⟩ := hm
    obtain ⟨df, rfl⟩ := process_categories_shape doc ws hws
    rcases List.mem_singleton.mp hwmem with rfl
    show some "categories.parquet" ≠ some "annotations.parquet"
    decide
  · obtain ⟨ws, hws, hwmem⟩ := hm
    obtain ⟨df, rfl⟩ := process_videos_shape doc ws hws
    rcases List.mem_singleton.mp hwmem with rfl
    show some "videos.parquet" ≠ some "annotations.parquet"
    decide
  · obtain ⟨ws, hws, hwmem⟩ := hm
    have := process_images_paths doc split ws hws w hwmem
    rw [this]
    decide
  · obtain ⟨ws, hws, _⟩ := hm
    rw [hpa] at hws
    cases hws
  · obtain ⟨ws, hws, hwmem⟩ := hm
    have := process_tracks_paths doc ws hws w hwmem
    rw [this]
    decide

/-- A document whose first four tables pass but whose annotations all
lack `category_id`. -/
def annsNoCategoryDoc : Record :=
  [("categories", .vList [.vObj
      [("id", .vInt 1), ("supercategory", .vNull), ("name", .vStr "swimmer")]]),
   ("videos", .vList [.vObj
      [("id", .vInt 7), ("height", .vInt 2160), ("width", .vInt 3840),
       ("name", .vStr "DJI_0001")]]),
   ("images", .vList [.vObj
      [("id", .vInt 1), ("file_name", .vStr "a.jpg"), ("date_time", .vNull),
       ("height", .vInt 480), ("width", .vInt 640), ("video_id", .vInt 7),
       ("frame_index", .vInt 0), ("source", .vNull), ("meta", .vNull)]]),
   ("annotations", .vList [.vObj
      [("id", .vInt 1), ("image_id", .vInt 1), ("video_id", .vInt 7),
       ("track_id", .vInt 5), ("area", .vInt 100),
       ("bbox", .vList [.vInt 1, .vInt 2, .vInt 3, .vInt 4])]]),
   ("tracks", .vList [.vObj
      [("id", .vInt 5), ("category_id", .vInt 2), ("video_id", .vInt 7)]])]

theorem annotations_missing_required_aborts_witness :
    (∃ e, process_annotations annsNoCategoryDoc = .error e)
    ∧ ∀ w ∈ (documentWrites annsNoCategoryDoc "train").1,
        w.1.head? ≠ some "annotations.parquet" :=
  annotations_missing_required_aborts annsNoCategoryDoc "train" (by decide)

/-- An empty `tracks` list cannot reach `apply_pyarrow_schema`: its
column projection already raises `KeyError`. -/
theorem tracksTable_of_empty (doc : Record) (h : getRecords doc "tracks" = []) :
    tracksTable doc = .error (.keyError "id") := by
  simp only [tracksTable, h]; rfl

/-- Claim C2: for every document whose images / annotations / tracks
tables pass the schema, the emitted partition files are exactly the
`groupby` groups mapped to their Hive-style paths, and each grouping is
a partition in the mathematical sense: the groups' rows together are a
permutation of the full projected table, group keys are pairwise
distinct, every row lies in the group of its own foreign-key value(s),
and no row lies in two different groups. -/
theorem partitioned_tables_form_partition (doc : Record) (split : String)
    (dfI dfA dfT : DataFrame)
    (hI : imagesTable doc split = .ok dfI)
    (hA : annotationsTable doc = .ok dfA)
    (hT : tracksTable doc = .ok dfT) :
    (process_images doc split =
        .ok ((groupByCol dfI "video_id").map imagesPartitionFile)
      ∧ groupPartition (groupByCol dfI "video_id")
          (fun r => colInt r "video_id") dfI.rows)
    ∧ (process_annotations doc =
        .ok ((groupByCols2 dfA "category_id" "track_id").map annotationsPartitionFile)
      ∧ groupPartition (groupByCols2 dfA "category_id" "track_id")
          (fun r => (colInt r "category_id", colInt r "track_id")) dfA.rows)
    ∧ (process_tracks doc =
        .ok ((groupByCol dfT "category_id").map tracksPartitionFile)
      ∧ groupPartition (groupByCol dfT "category_id")
          (fun r => colInt r "category_id") dfT.rows) := by
  have hne : (getRecords doc "tracks").isEmpty = false := by
    cases hcase : (getRecords doc "tracks").isEmpty
    · rfl
    · rw [tracksTable_of_empty doc (List.isEmpty_iff.mp hcase)] at hT
      cases hT
  refine ⟨⟨?_, groupByCol_partition dfI "video_id"⟩,
          ⟨?_, groupByCols2_partition dfA "category_id" "track_id"⟩,
          ⟨?_, groupByCol_partition dfT "category_id"⟩⟩
  · simp [process_images, hI]
  · simp [process_annotations, hA]
  · simp [process_tracks, hne, hT]

/-- A document whose images, annotations and tracks tables all pass the
schema, with two partitions in each table. -/
def partitionDemoDoc : Record :=
  [("images", .vList [
      .vObj [("id", .vInt 1), ("file_name", .vStr "a.jpg"), ("date_time", .vNull),
             ("height", .vInt 480), ("width", .vInt 640), ("video_id", .vInt 7),
             ("frame_index", .vInt 0), ("source", .vNull), ("meta", .vNull)],
      .vObj [("id", .vInt 2), ("file_name", .vStr "b.jpg"), ("date_time", .vNull),
             ("height", .vInt 480), ("width", .vInt 640), ("video_id", .vInt 3),
             ("frame_index", .vInt 1), ("source", .vNull), ("meta", .vNull)]]),
   ("annotations", .vList [
      .vObj [("id", .vInt 1), ("image_id", .vInt 1), ("category_id", .vInt 2),
             ("video_id", .vInt 7), ("track_id", .vInt 5), ("area", .vInt 100),
             ("bbox", .vList [.vInt 1, .vInt 2, .vInt 3, .vInt 4])],
      .vObj [("id", .vInt 2), ("image_id", .vInt 2), ("category_id", .vInt 1),
             ("video_id", .vInt 3), ("track_id", .vInt 4), ("area", .vInt 9),
             ("bbox", .vList [.vInt 5, .vInt 6, .vInt 7, .vInt 8])]]),
   ("tracks", .vList [
      .vObj [("id", .vInt 5), ("category_id", .vInt 2), ("video_id", .vInt 7)],
      .vObj [("id", .vInt 4), ("category_id", .vInt 1), ("video_id", .vInt 3)]])]

/-- `imagesTable partitionDemoDoc "train"`, written out. -/
def partitionDemoImages : DataFrame :=
  ⟨["id", "file_name", "file_path", "date_time", "height", "width", "video_id",
    "frame_index", "dataset_split", "source", "meta"],
   [[("id", .vInt 1), ("file_name", .vStr "a.jpg"),
     ("file_path", .vStr "data/images/train/a.jpg"), ("date_time", .vNull),
     ("height", .vInt 480), ("width", .vInt 640), ("video_id", .vInt 7),
     ("frame_index", .vInt 0), ("dataset_split", .vStr "train"),
     ("source", .vNull), ("meta", .vNull)],
    [("id", .vInt 2), ("file_name", .vStr "b.jpg"),
     ("file_path", .vStr "data/images/train/b.jpg"), ("date_time", .vNull),
     ("height", .vInt 480), ("width", .vInt 640), ("video_id", .vInt 3),
     ("frame_index", .vInt 1), ("dataset_split", .vStr "train"),
     ("source", .vNull), ("meta", .vNull)]]⟩

/-- `annotationsTable partitionDemoDoc`, written out. -/
def partitionDemoAnns : DataFrame :=
  ⟨["id", "image_id", "category_id", "video_id", "track_id", "area",
    "bbox_x", "bbox_y", "bbox_width", "bbox_height"],
   [[("id", .vInt 1), ("image_id", .vInt 1), ("category_id", .vInt 2),
     ("video_id", .vInt 7), ("track_id", .vInt 5), ("area", .vInt 100),
     ("bbox_x", .vInt 1), ("bbox_y", .vInt 2), ("bbox_width", .vInt 3),
     ("bbox_height", .vInt 4)],
    [("id", .vInt 2), ("image_id", .vInt 2), ("category_id", .vInt 1),
     ("video_id", .vInt 3), ("track_id", .vInt 4), ("area", .vInt 9),
     ("bbox_x", .vInt 5), ("bbox_y", .vInt 6), ("bbox_width", .vInt 7),
     ("bbox_height", .vInt 8)]]⟩

/-- `tracksTable partitionDemoDoc`, written out. -/
def partitionDemoTracks : DataFrame :=
  ⟨["id", "category_id", "video_id"],
   [[("id", .vInt 5), ("category_id", .vInt 2), ("video_id", .vInt 7)],
    [("id", .vInt 4), ("category_id", .vInt 1), ("video_id", .vInt 3)]]⟩

theorem partitioned_tables_form_partition_witness :
    (process_images partitionDemoDoc "train" =
        .ok ((groupByCol partitionDemoImages "video_id").map imagesPartitionFile)
      ∧ groupPartition (groupByCol partitionDemoImages "video_id")
          (fun r => colInt r "video_id") partitionDemoImages.rows)
    ∧ (process_annotations partitionDemoDoc =
        .ok ((groupByCols2 partitionDemoAnns "category_id" "track_id").map
          annotationsPartitionFile)
      ∧ groupPartition (groupByCols2 partitionDemoAnns "category_id" "track_id")
          (fun r => (colInt r "category_id", colInt r "track_id"))
          partitionDemoAnns.rows)
    ∧ (process_tracks partitionDemoDoc =
        .ok ((groupByCol partitionDemoTracks "category_id").map tracksPartitionFile)
      ∧ groupPartition (groupByCol partitionDemoTracks "category_id")
          (fun r => colInt r "category_id") partitionDemoTracks.rows) :=
  partitioned_tables_form_partition partitionDemoDoc "train"
    partitionDemoImages partitionDemoAnns partitionDemoTracks
    (by decide) (by decide) (by decide)

/-- An images input with every schema column present but an integer in
the string column `date_time`: `Table.from_pandas` raises
`ArrowTypeError` ("Expected bytes, got a 'int' object"), a `TypeError`. -/
def imagesIntDateTimeDoc : Record :=
  [("images", .vList [.vObj
    [("id", .vInt 1), ("file_name", .vStr "a.jpg"), ("date_time", .vInt 123),
     ("height", .vInt 480), ("width", .vInt 640), ("video_id", .vInt 7),
     ("frame_index", .vInt 0), ("source", .vNull), ("meta", .vNull)]])]

/-- Claim C8 (counterexample): a type coercion failure does NOT always
follow the same strict-versus-lenient driver path as a missing required
column.  An integer in the string column `date_time` makes
`Table.from_pandas` raise `ArrowTypeError` — a `TypeError`, which
`main`'s `except ValueError: raise` does not catch, so the lenient
`except Exception: continue` skips to the next input file — while a
missing column raises a `ValueError` and stops the whole batch. -/
theorem coercion_failure_lenient_path :
    process_images imagesIntDateTimeDoc "train" =
      .error (.arrowTypeError "images")
    ∧ process_images imagesNoFrameIndexDoc "train" =
        .error (.missingColumns "images" ["frame_index"])
    ∧ driverAction (.arrowTypeError "images") = DriverAction.skipToNextFile
    ∧ driverAction (.missingColumns "images" ["frame_index"]) =
        DriverAction.stopBatch
    ∧ driverAction (.arrowTypeError "images") ≠
        driverAction (.missingColumns "images" ["frame_index"]) := by decide

/-- Claim C8 (amended): every failure of `apply_pyarrow_schema` aborts
that table before any write, and it is one of the missing-column
`ValueError`, `ArrowInvalid` or `ArrowTypeError`; the driver path is
determined by the exception's class: an `ArrowTypeError` coercion
failure takes the lenient skip-to-next-document path, every other
schema failure (missing column, `ArrowInvalid` coercion failure) takes
the strict stop-the-batch path. -/
theorem schema_failure_abort_paths (df : DataFrame) (tbl : String) (e : PErr)
    (h : apply_pyarrow_schema df tbl = .error e) :
    ((∃ cols, e = PErr.missingColumns tbl cols) ∨ e = PErr.arrowInvalid tbl
        ∨ e = PErr.arrowTypeError tbl)
    ∧ (e = PErr.arrowTypeError tbl →
        driverAction e = DriverAction.skipToNextFile)
    ∧ (e ≠ PErr.arrowTypeError tbl →
        driverAction e = DriverAction.stopBatch) := by
  simp only [apply_pyarrow_schema] at h
  split at h
  · cases hr : coerceRows (PARQUET_SCHEMAS tbl) df.rows with
    | ok rows => rw [hr] at h; cases h
    | error ae =>
        rw [hr] at h
        cases ae
        · injection h with h2
          subst h2
          exact ⟨Or.inr (Or.inl rfl), fun hc => PErr.noConfusion hc, fun _ => rfl⟩
        · injection h with h2
          subst h2
          exact ⟨Or.inr (Or.inr rfl), fun _ => rfl, fun hne => absurd rfl hne⟩
  · injection h with h2
    subst h2
    exact ⟨Or.inl ⟨_, rfl⟩, fun hc => PErr.noConfusion hc, fun _ => rfl⟩

theorem schema_failure_abort_paths_witness :
    ((∃ cols, PErr.missingColumns "videos" ["id", "height", "width", "name"] =
        PErr.missingColumns "videos" cols)
      ∨ PErr.missingColumns "videos" ["id", "height", "width", "name"] =
          PErr.arrowInvalid "videos"
      ∨ PErr.missingColumns "videos" ["id", "height", "width", "name"] =
          PErr.arrowTypeError "videos")
    ∧ (PErr.missingColumns "videos" ["id", "height", "width", "name"] =
          PErr.arrowTypeError "videos" →
        driverAction (PErr.missingColumns "videos"
          ["id", "height", "width", "name"]) = DriverAction.skipToNextFile)
    ∧ (PErr.missingColumns "videos" ["id", "height", "width", "name"] ≠
          PErr.arrowTypeError "videos" →
        driverAction (PErr.missingColumns "videos"
          ["id", "height", "width", "name"]) = DriverAction.stopBatch) :=
  schema_failure_abort_paths ⟨[], []⟩ "videos"
    (PErr.missingColumns "videos" ["id", "height", "width", "name"]) rfl

/-- Claim C7: a video record keyed with the literal `"name:"` (and
otherwise well-typed) has that field renamed to `name` before
projection, so its value lands in the `name` column of the videos
output instead of being dropped as an unknown column. -/
theorem video_name_colon_renamed (doc : Record) (a b c : Int) (s : String)
    (hA : -(2 ^ 31) ≤ a ∧ a < 2 ^ 31)
    (hB : -(2 ^ 31) ≤ b ∧ b < 2 ^ 31)
    (hC : -(2 ^ 31) ≤ c ∧ c < 2 ^ 31)
    (h : getRecords doc "videos" =
      [[("id", .vInt a), ("height", .vInt b), ("width", .vInt c),
        ("name:", .vStr s)]]) :
    process_videos doc = .ok [(["videos.parquet"],
      ⟨["id", "height", "width", "name"],
       [[("id", .vInt a), ("height", .vInt b), ("width", .vInt c),
         ("name", .vStr s)]]⟩)] := by
  have e1 : coerceVal ⟨"id", .pInt32, false⟩ (.vInt a) = .ok (.vInt a) := by
    show (if -(2 ^ 31) ≤ a ∧ a < 2 ^ 31 then Except.ok (PyVal.vInt a)
      else Except.error ArrowErr.invalid) = Except.ok (PyVal.vInt a)
    exact if_pos hA
  have e2 : coerceVal ⟨"height", .pInt32, false⟩ (.vInt b) = .ok (.vInt b) := by
    show (if -(2 ^ 31) ≤ b ∧ b < 2 ^ 31 then Except.ok (PyVal.vInt b)
      else Except.error ArrowErr.invalid) = Except.ok (PyVal.vInt b)
    exact if_pos hB
  have e3 : coerceVal ⟨"width", .pInt32, false⟩ (.vInt c) = .ok (.vInt c) := by
    show (if -(2 ^ 31) ≤ c ∧ c < 2 ^ 31 then Except.ok (PyVal.vInt c)
      else Except.error ArrowErr.invalid) = Except.ok (PyVal.vInt c)
    exact if_pos hC
  have e4 : coerceVal ⟨"name", .pString, false⟩ (.vStr s) = .ok (.vStr s) := rfl
  have hmid : process_videos doc = Except.bind (apply_pyarrow_schema
      ⟨["id", "height", "width", "name"],
       [[("id", .vInt a), ("height", .vInt b), ("width", .vInt c),
         ("name", .vStr s)]]⟩ "videos")
      (fun df => Except.ok [(["videos.parquet"], df)]) := by
    simp only [process_videos, h]
    rfl
  rw [hmid]
  simp [apply_pyarrow_schema, coerceRows, coerceRow, Record.getD,
    List.lookup, e1, e2, e3, e4, DataFrame.hasCol, PARQUET_SCHEMAS, Except.bind]

/-- A document with a single video record using the quirky `"name:"` key. -/
def videoNameColonDoc : Record :=
  [("videos", .vList [.vObj
    [("id", .vInt 1), ("height", .vInt 2160), ("width", .vInt 3840),
     ("name:", .vStr "DJI_0001")]])]

theorem video_name_colon_renamed_witness :
    process_videos videoNameColonDoc = .ok [(["videos.parquet"],
      ⟨["id", "height", "width", "name"],
       [[("id", .vInt 1), ("height", .vInt 2160), ("width", .vInt 3840),
         ("name", .vStr "DJI_0001")]]⟩)] :=
  video_name_colon_renamed videoNameColonDoc 1 2160 3840 "DJI_0001"
    (by decide) (by decide) (by decide) rfl

/-- Claim C9: running the pipeline a second time on the same document
and output root overwrites every table/partition path with identical
content, so the resulting output directory is unchanged (the stats JSON
is not a table file and is outside this statement). -/
theorem pipeline_idempotent (fs : FileSystem) (data : Record) (split : String) :
    runPipeline (runPipeline fs data split) data split = runPipeline fs data split := by
  funext p
  simp only [runPipeline, writeAll_apply]
  cases h : lastWrite (documentWrites data split).1 p <;> simp [h]

/-- Claim C10: a `source`/`meta` cell that is present but falsy (empty
object, `None`, empty string, `0`, empty list, `False`) is mapped to a
null cell, not to its JSON serialization; only truthy values are
serialized (`lambda x: json.dumps(x) if x else None`). -/
theorem falsy_nested_not_serialized (x : PyVal) (h : pyTruthy x = false) :
    serializeNested x = PyVal.vNull ∧
      serializeNested x ≠ PyVal.vStr (jsonDumps x) := by
  have h1 : serializeNested x = PyVal.vNull := by
    simp [serializeNested, h]
  refine ⟨h1, ?_⟩
  rw [h1]
  intro hc
  exact PyVal.noConfusion hc

theorem falsy_nested_not_serialized_witness :
    (serializeNested (PyVal.vObj []) = PyVal.vNull ∧
      serializeNested (PyVal.vObj []) ≠ PyVal.vStr (jsonDumps (PyVal.vObj []))) ∧
    (serializeNested PyVal.vNull = PyVal.vNull ∧
      serializeNested PyVal.vNull ≠ PyVal.vStr (jsonDumps PyVal.vNull)) ∧
    (serializeNested (PyVal.vStr "") = PyVal.vNull ∧
      serializeNested (PyVal.vStr "") ≠ PyVal.vStr (jsonDumps (PyVal.vStr ""))) ∧
    (serializeNested (PyVal.vInt 0) = PyVal.vNull ∧
      serializeNested (PyVal.vInt 0) ≠ PyVal.vStr (jsonDumps (PyVal.vInt 0))) ∧
    (serializeNested (PyVal.vList []) = PyVal.vNull ∧
      serializeNested (PyVal.vList []) ≠ PyVal.vStr (jsonDumps (PyVal.vList []))) :=
  ⟨falsy_nested_not_serialized (PyVal.vObj []) rfl,
   falsy_nested_not_serialized PyVal.vNull rfl,
   falsy_nested_not_serialized (PyVal.vStr "") (by decide),
   falsy_nested_not_serialized (PyVal.vInt 0) rfl,
   falsy_nested_not_serialized (PyVal.vList []) rfl⟩

end SDS
